import Mathlib

/-!
# Verification of the page-transition manager of smn_site_ciri

Shallow embedding of the client-side page-transition state machine
(`TransitionManager` in `src/static/scripts/broadcastManager.js`; the
earlier draft in `src/static/scripts/transitionManager.js` is declared a
superseded variant of the same design by the specification).

The embedding models:
* the overlay's inline style record (`visibility`, `transform`, `opacity`),
  the only style properties the named state setters write;
* per-tab storage (`sessionStorage`) as an association list;
* the manager's instance fields that the verified operations read or write,
  together with the pending-callback state the constructor leaves behind
  (the armed Hold Gate failsafe timer, and the `queueMicrotask` callback
  that plays the out-animation on classic non-held loads);
* each operation as a pure state transformer that additionally returns an
  ordered trace of its observable effects (animation cancellations, style
  writes, scheduled tweens, storage writes, navigation), so ordering claims
  ("before navigating", "after the out-animation settles") are statable.

Asynchrony: the JS code awaits Web-Animations promises.  Each awaited tween
either finishes or is canceled; the embedding passes that outcome in as an
`AnimOutcome` argument and models the `catch`/`finally` continuations of the
source explicitly.
-/

namespace SmnSite

/-- Transition effect kind: `transitionEffect === 'fade' ? 'fade' : 'slide'`. -/
inductive Effect where
  | slide
  | fade
deriving Repr, DecidableEq

/-- The overlay element's inline style, restricted to the three properties the
manager's named state setters mutate.  The empty string models an unset
inline property (falsy in JS). -/
structure OverlayStyle where
  visibility : String
  transform : String
  opacity : String
deriving Repr, DecidableEq

/-- Logical overlay positions of the specification: A (parked off-screen
left / transparent), B (fully covering), C (off-screen right / transparent). -/
inductive Pos where
  | A
  | B
  | C
deriving Repr, DecidableEq

/-- Outcome of an awaited Web-Animations tween: its promise resolves on
`finish` and rejects on `cancel`. -/
inductive AnimOutcome where
  | finished
  | canceled
deriving Repr, DecidableEq

/-- Per-tab storage (`sessionStorage`): an association list of key/value pairs. -/
def Storage := List (String × String)
deriving Repr, DecidableEq

instance : Inhabited Storage := ⟨([] : List (String × String))⟩

/-- `sessionStorage.setItem k v`. -/
def setItem (s : Storage) (k v : String) : Storage :=
  (k, v) :: (List.filter (fun p => p.1 ≠ k) s)

/-- `sessionStorage.getItem k` (`none` models JS `null`). -/
def getItem (s : Storage) (k : String) : Option String :=
  (List.find? (fun p => p.1 == k) s).map (fun p => p.2)

/-- `sessionStorage.removeItem k`. -/
def removeItem (s : Storage) (k : String) : Storage :=
  List.filter (fun p => p.1 ≠ k) s

/-- Observable effects of the manager, in program order.  `cancelAnims` is
`overlay.getAnimations().forEach(a => a.cancel())`; `styleSet` is a direct
inline-style write leaving the overlay with the recorded style; `animate` is
a scheduled tween (`element.animate`) between two logical positions;
`wait` is the aesthetic buffer timer; `raf` is a `requestAnimationFrame`
boundary; `setMarker` / `removeMarker` are the storage writes;
`navigate` is `window.location.assign`. -/
inductive Ev where
  | cancelAnims
  | styleSet (s : OverlayStyle)
  | animate (src dst : Pos)
  | wait (ms : Nat)
  | raf
  | setMarker (k v : String)
  | removeMarker (k : String)
  | navigate (url : String)
deriving Repr, DecidableEq

/-- The manager's instance state: configuration fields, the mutable flags,
the pending-callback state left by the constructor (`holdTimerSet` — the
armed Hold Gate failsafe timer; `outMicrotaskQueued` — the
`queueMicrotask(() => this._animateOutThenHide())` callback queued on
classic non-held loads), the overlay's inline style, the forward-fill left
by a finished tween (`fill: 'forwards'` keeps the element rendered at the
tween's end position until the animation is canceled), per-tab storage and
the document location. -/
structure TM where
  effect : Effect
  duration : Nat
  bufferTime : Nat
  easing : String
  zIndex : Nat
  sessionKey : String
  respectReducedMotion : Bool
  isAnimating : Bool
  initialHeld : Bool
  holdTimerSet : Bool
  outMicrotaskQueued : Bool
  initialHoldTimeoutMs : Nat
  style : OverlayStyle
  animFill : Option Pos
  storage : Storage
  location : Option String
deriving Repr, DecidableEq

/-- `_shouldReduceMotion()`: `respectReducedMotion && window.matchMedia &&
window.matchMedia('(prefers-reduced-motion: reduce)').matches`.  In a
browser `window.matchMedia` is always present; `mediaReduce` is the media
query's `matches` value. -/
def shouldReduceMotion (m : TM) (mediaReduce : Bool) : Bool :=
  m.respectReducedMotion && mediaReduce

/-- `_parkAtAAndHide()` on the style record. -/
def parkAtAAndHide (eff : Effect) (s : OverlayStyle) : OverlayStyle :=
  match eff with
  | .slide => { s with visibility := "hidden", transform := "translateX(-100%)" }
  | .fade => { s with opacity := "0", visibility := "hidden" }

/-- `_showAtB()` on the style record. -/
def showAtB (eff : Effect) (s : OverlayStyle) : OverlayStyle :=
  match eff with
  | .slide => { s with visibility := "visible", transform := "translateX(0%)" }
  | .fade => { s with visibility := "visible", opacity := "1" }

/-- `_hideAtC()` on the style record. -/
def hideAtC (eff : Effect) (s : OverlayStyle) : OverlayStyle :=
  match eff with
  | .slide => { s with transform := "translateX(100%)", visibility := "hidden" }
  | .fade => { s with opacity := "0", visibility := "hidden" }

/-- Does the style show the overlay at full coverage (position B)? -/
def coversFully (eff : Effect) (s : OverlayStyle) : Bool :=
  s.visibility == "visible" &&
    (match eff with
     | .slide => s.transform == "translateX(0%)"
     | .fade => s.opacity == "1")

/-- Does the style park the overlay at position A, hidden? -/
def parkedAtA (eff : Effect) (s : OverlayStyle) : Bool :=
  s.visibility == "hidden" &&
    (match eff with
     | .slide => s.transform == "translateX(-100%)"
     | .fade => s.opacity == "0")

/-- `_stopAllAnimations()`: cancels every animation on the overlay; a
canceled animation drops its forward fill, leaving the inline style in
effect. -/
def stopAllAnimations (m : TM) : TM :=
  { m with animFill := none }

/-- `_forceAtB()`: cancel any ongoing animation and snap the style to B. -/
def forceAtB (m : TM) : TM :=
  let m1 := stopAllAnimations m
  { m1 with style := showAtB m1.effect m1.style }

/-- `_animateInToCover()`: make the overlay visible, reset its style to the
start pose (A / transparent), and run the A→B tween with forward fill.
When the tween finishes, the forward fill keeps the overlay rendered at B;
when it is canceled the awaiting caller sees a rejection (handled by the
caller). -/
def animateInToCover (m : TM) (res : AnimOutcome) : TM × List Ev :=
  let s1 : OverlayStyle :=
    match m.effect with
    | .slide => { m.style with visibility := "visible", transform := "translateX(-100%)" }
    | .fade => { m.style with visibility := "visible", opacity := "0" }
  let fill : Option Pos :=
    match res with
    | .finished => some Pos.B
    | .canceled => none
  ({ m with style := s1, animFill := fill }, [Ev.styleSet s1, Ev.animate Pos.A Pos.B])

/-- `_animateOutThenHide()`.  Under reduced motion: snap to C, then park at A
on the next animation frame, scheduling no tween.  Otherwise: cancel stray
animations, snap to B, optionally wait the buffer, run the B→C tween
(cancellation is swallowed), and in the `finally` block snap to C and park
at A on the next animation frame. -/
def animateOutThenHide (m : TM) (mediaReduce : Bool) (res : AnimOutcome) : TM × List Ev :=
  if shouldReduceMotion m mediaReduce then
    let s1 := hideAtC m.effect m.style
    let s2 := parkAtAAndHide m.effect s1
    ({ m with style := s2 }, [Ev.styleSet s1, Ev.raf, Ev.styleSet s2])
  else
    let ma := stopAllAnimations m
    let s1 := showAtB ma.effect ma.style
    let bufEv : List Ev := if 0 < ma.bufferTime then [Ev.wait ma.bufferTime] else []
    let fill : Option Pos :=
      match res with
      | .finished => some Pos.C
      | .canceled => none
    let s2 := hideAtC ma.effect s1
    let s3 := parkAtAAndHide ma.effect s2
    ({ ma with style := s3, animFill := fill },
      [Ev.cancelAnims, Ev.styleSet s1] ++ bufEv ++
        [Ev.animate Pos.B Pos.C, Ev.styleSet s2, Ev.raf, Ev.styleSet s3])

/-- `transitionTo(url)` of the feature-complete variant.  Under reduced
motion: navigate immediately.  If a prior transition is still animating:
cancel it and force B.  Otherwise play A→B (a cancellation is caught and
answered by forcing B); then optionally wait the buffer, set the cross-page
marker, and navigate. -/
def transitionTo (m : TM) (url : String) (mediaReduce : Bool)
    (animRes : AnimOutcome) : TM × List Ev :=
  if shouldReduceMotion m mediaReduce then
    ({ m with location := some url }, [Ev.navigate url])
  else
    let step1 : TM × List Ev :=
      if m.isAnimating then
        let m1 := forceAtB (stopAllAnimations m)
        (m1, [Ev.cancelAnims, Ev.cancelAnims, Ev.styleSet m1.style])
      else
        let m0 := { m with isAnimating := true }
        match animRes with
        | .finished =>
          let r := animateInToCover m0 AnimOutcome.finished
          ({ r.1 with isAnimating := false }, r.2)
        | .canceled =>
          let r := animateInToCover m0 AnimOutcome.canceled
          let m2 := forceAtB r.1
          ({ m2 with isAnimating := false },
            r.2 ++ [Ev.cancelAnims, Ev.styleSet m2.style])
    let m2 := step1.1
    let bufEv : List Ev := if 0 < m2.bufferTime then [Ev.wait m2.bufferTime] else []
    let m3 := { m2 with storage := setItem m2.storage m2.sessionKey "1",
                        location := some url }
    (m3, step1.2 ++ bufEv ++ [Ev.setMarker m2.sessionKey "1", Ev.navigate url])

/-- Result of the `pageshow` lifecycle handler: the state after the handler
(and the continuations it schedules) settle, the trace, and whether the
handler entered the out-animation branch. -/
structure PageshowResult where
  st : TM
  trace : List Ev
  ranOut : Bool
deriving Repr, DecidableEq

/-- The `pageshow` handler installed by `_installLifecycleHandlers()`:
read the cross-page marker, cancel dangling animations; when the page was
restored from the back/forward cache or the marker is set, snap to B, play
the out-animation and remove the marker once it settles; otherwise park at
A unless the Hold Gate is active. -/
def pageshowHandler (m : TM) (persisted : Bool) (mediaReduce : Bool)
    (outRes : AnimOutcome) : PageshowResult :=
  let pending : Bool := getItem m.storage m.sessionKey == some "1"
  let m1 := stopAllAnimations m
  if persisted || pending then
    let m2 := { m1 with style := showAtB m1.effect m1.style }
    let r := animateOutThenHide m2 mediaReduce outRes
    { st := { r.1 with storage := removeItem r.1.storage m.sessionKey }
      trace := [Ev.cancelAnims, Ev.styleSet m2.style] ++ r.2 ++
        [Ev.removeMarker m.sessionKey]
      ranOut := true }
  else if !m1.initialHeld then
    let m2 := { m1 with style := parkAtAAndHide m1.effect m1.style }
    { st := m2, trace := [Ev.cancelAnims, Ev.styleSet m2.style], ranOut := false }
  else
    { st := m1, trace := [Ev.cancelAnims], ranOut := false }

/-- `releaseInitialHold()`: no-op unless held; otherwise drop the latch,
clear the failsafe timer, and play the out-animation. -/
def releaseInitialHold (m : TM) (mediaReduce : Bool)
    (outRes : AnimOutcome) : TM × List Ev :=
  if m.initialHeld then
    let m1 := { m with initialHeld := false, holdTimerSet := false }
    animateOutThenHide m1 mediaReduce outRes
  else
    (m, [])

/-- The Hold Gate failsafe timer callback installed by the constructor:
`if (this._initialHeld) this.releaseInitialHold();`. -/
def holdTimerFire (m : TM) (mediaReduce : Bool)
    (outRes : AnimOutcome) : TM × List Ev :=
  if m.initialHeld then releaseInitialHold m mediaReduce outRes else (m, [])

/-- The microtask queued by the constructor's non-held branch
(`queueMicrotask(() => this._animateOutThenHide())`): on classic loads it
plays the B→C out-animation right after the current script task. -/
def microtaskFire (m : TM) (mediaReduce : Bool)
    (outRes : AnimOutcome) : TM × List Ev :=
  if m.outMicrotaskQueued then
    animateOutThenHide { m with outMicrotaskQueued := false } mediaReduce outRes
  else
    (m, [])

/-- Constructor options with the source's defaults. -/
structure TMOptions where
  duration : Nat := 600
  bufferTime : Nat := 0
  transitionEffect : String := "slide"
  easing : String := "cubic-bezier(0.22, 1, 0.36, 1)"
  zIndex : Nat := 2147483647
  respectReducedMotion : Bool := true
  sessionKey : String := "__tm_pending_out__"
  initialHold : Bool := false
  initialHoldTimeoutMs : Nat := 6000
deriving Repr, DecidableEq

/-- `_setupOverlayStyles()` restricted to the three modelled properties:
for the fade effect, unset opacity/visibility are initialised (`!el.style.x`
tests for the empty string); the slide effect touches none of them. -/
def setupOverlayStyles (eff : Effect) (s : OverlayStyle) : OverlayStyle :=
  match eff with
  | .slide => s
  | .fade =>
    { s with opacity := if s.opacity == "" then "1" else s.opacity,
             visibility := if s.visibility == "" then "visible" else s.visibility }

/-- The constructor.  `overlay` is the element passed by reference;
`queried` is what `document.querySelector(overlaySelector || '')` resolves
to (each carries the element's initial inline style).  When neither yields
an element the constructor throws (`document.querySelector('')` itself
throws when no selector was supplied at all; either way construction fails
with an exception).  Otherwise it records the options, normalises the
effect, sets up the overlay styles, cancels stray animations, parks at A
hidden, and then either arms the Hold Gate failsafe timer (`initialHold`
set) or queues the `_animateOutThenHide` microtask that plays B→C on the
classic load (`queueMicrotask(() => this._animateOutThenHide())`). -/
def mkTM (overlay : Option OverlayStyle) (queried : Option OverlayStyle)
    (opts : TMOptions) (storage : Storage) : Except String TM :=
  match (Option.orElse overlay (fun _ => queried)) with
  | none =>
    Except.error "TransitionManager: overlay element not found. Provide overlay or overlaySelector."
  | some sty =>
    let eff : Effect := if opts.transitionEffect == "fade" then .fade else .slide
    let s1 := setupOverlayStyles eff sty
    Except.ok
      { effect := eff
        duration := opts.duration
        bufferTime := opts.bufferTime
        easing := opts.easing
        zIndex := opts.zIndex
        sessionKey := opts.sessionKey
        respectReducedMotion := opts.respectReducedMotion
        isAnimating := false
        initialHeld := opts.initialHold
        holdTimerSet := opts.initialHold
        outMicrotaskQueued := !opts.initialHold
        initialHoldTimeoutMs := opts.initialHoldTimeoutMs
        style := parkAtAAndHide eff s1
        animFill := none
        storage := storage
        location := none }

/-- A link-click event's fields read by `handleLinkClick`. -/
structure MouseEv where
  metaKey : Bool
  ctrlKey : Bool
  shiftKey : Bool
  altKey : Bool
deriving Repr, DecidableEq

/-- The anchor fields read by `handleLinkClick` (`href` is the resolved
href property, empty string when absent — falsy in JS). -/
structure Anchor where
  href : String
  target : String
deriving Repr, DecidableEq

/-- Outcome of `handleLinkClick`: the handler's return value, whether it
called `preventDefault()`, and the url it handed to `transitionTo` (if
any). -/
structure ClickResult where
  returnValue : Bool
  preventedDefault : Bool
  navigatedTo : Option String
deriving Repr, DecidableEq

/-- `handleLinkClick(e, anchor)`: defer to the browser when there is no
anchor or no href, when a modifier key is held, or when the anchor targets
a new browsing context; otherwise prevent the default navigation and hand
the href to `transitionTo`.  (`transitionTo` is `async`, so the comparison
`transitionTo(...) === false` is always false and the handler returns
`true` on that path.) -/
def handleLinkClick (e : MouseEv) (anchor : Option Anchor) : ClickResult :=
  match anchor with
  | none => { returnValue := true, preventedDefault := false, navigatedTo := none }
  | some a =>
    if a.href == "" then
      { returnValue := true, preventedDefault := false, navigatedTo := none }
    else if e.metaKey || e.ctrlKey || e.shiftKey || e.altKey || a.target == "_blank" then
      { returnValue := true, preventedDefault := false, navigatedTo := none }
    else
      { returnValue := true, preventedDefault := true, navigatedTo := some a.href }

/-- A blank inline style (all three properties unset). -/
def sampleStyle : OverlayStyle :=
  { visibility := "", transform := "", opacity := "" }

/-- A manager with the source's default options in its resting state (after
the initial out-animation microtask has been consumed), used to instantiate
the verified properties. -/
def sampleTM : TM :=
  { effect := Effect.slide
    duration := 600
    bufferTime := 0
    easing := "cubic-bezier(0.22, 1, 0.36, 1)"
    zIndex := 2147483647
    sessionKey := "__tm_pending_out__"
    respectReducedMotion := true
    isAnimating := false
    initialHeld := false
    holdTimerSet := false
    outMicrotaskQueued := false
    initialHoldTimeoutMs := 6000
    style := parkAtAAndHide Effect.slide sampleStyle
    animFill := none
    storage := ([] : List (String × String))
    location := none }

/-- The sample manager while a transition is animating. -/
def sampleBusyTM : TM :=
  { sampleTM with isAnimating := true }

/-- The sample manager as re-instantiated on the destination page, carrying
the per-tab storage left behind by a completed `transitionTo` of the sample
manager. -/
def sampleNextTM : TM :=
  { sampleTM with
      storage := (transitionTo sampleTM "/next" false AnimOutcome.finished).1.storage }

/-- The default constructor options with the Hold Gate enabled. -/
def sampleHoldOpts : TMOptions :=
  { initialHold := true }

/-- The sample manager constructed in held mode (Hold Gate latched, failsafe
timer armed). -/
def sampleHeldTM : TM :=
  { sampleTM with initialHeld := true, holdTimerSet := true }

/-- The manager exactly as the constructor produces it on a fresh classic
load with the default options: parked at A hidden, not held, and with the
out-animation microtask still queued. -/
def freshTM : TM :=
  { sampleTM with outMicrotaskQueued := true }

-- ----------------------------------------------------------------------
-- Helper lemmas (shared)
-- ----------------------------------------------------------------------

theorem getItem_setItem_self (s : Storage) (k v : String) :
    getItem (setItem s k v) k = some v := by
  simp [getItem, setItem, List.find?]

theorem getItem_removeItem_self (s : Storage) (k : String) :
    getItem (removeItem s k) k = none := by
  simp only [getItem, removeItem, Option.map_eq_none]
  induction s with
  | nil => rfl
  | cons a t ih =>
    by_cases h : a.1 = k
    · simp [List.filter, h, ih]
    · simp [List.filter, h, List.find?, ih]

theorem coversFully_showAtB (eff : Effect) (s : OverlayStyle) :
    coversFully eff (showAtB eff s) = true := by
  cases eff <;> simp [coversFully, showAtB]

theorem parkedAtA_parkAtAAndHide (eff : Effect) (s : OverlayStyle) :
    parkedAtA eff (parkAtAAndHide eff s) = true := by
  cases eff <;> simp [parkedAtA, parkAtAAndHide]

theorem animateOutThenHide_storage (m : TM) (mr : Bool) (res : AnimOutcome) :
    (animateOutThenHide m mr res).1.storage = m.storage := by
  unfold animateOutThenHide
  split <;> simp [stopAllAnimations]

theorem animateOutThenHide_effect (m : TM) (mr : Bool) (res : AnimOutcome) :
    (animateOutThenHide m mr res).1.effect = m.effect := by
  unfold animateOutThenHide
  split <;> simp [stopAllAnimations]

theorem animateOutThenHide_ends_parked (m : TM) (mr : Bool) (res : AnimOutcome) :
    parkedAtA (animateOutThenHide m mr res).1.effect
      (animateOutThenHide m mr res).1.style = true := by
  unfold animateOutThenHide
  split <;> simp [stopAllAnimations, parkedAtA_parkAtAAndHide]

theorem animateOutThenHide_trace_ne_nil (m : TM) (mr : Bool) (res : AnimOutcome) :
    (animateOutThenHide m mr res).2 ≠ [] := by
  unfold animateOutThenHide
  split <;> simp

theorem animateOutThenHide_initialHeld (m : TM) (mr : Bool) (res : AnimOutcome) :
    (animateOutThenHide m mr res).1.initialHeld = m.initialHeld := by
  unfold animateOutThenHide
  split <;> simp [stopAllAnimations]

theorem animateOutThenHide_holdTimerSet (m : TM) (mr : Bool) (res : AnimOutcome) :
    (animateOutThenHide m mr res).1.holdTimerSet = m.holdTimerSet := by
  unfold animateOutThenHide
  split <;> simp [stopAllAnimations]

theorem transitionTo_storage (m : TM) (url : String) (mr : Bool) (res : AnimOutcome)
    (hred : shouldReduceMotion m mr = false) :
    (transitionTo m url mr res).1.storage = setItem m.storage m.sessionKey "1" := by
  cases res <;> by_cases hbusy : m.isAnimating = true <;>
    simp [transitionTo, hred, hbusy, forceAtB, stopAllAnimations, animateInToCover]

theorem transitionTo_trace_end (m : TM) (url : String) (mr : Bool) (res : AnimOutcome)
    (hred : shouldReduceMotion m mr = false) :
    (transitionTo m url mr res).2.reverse.take 2 =
      [Ev.navigate url, Ev.setMarker m.sessionKey "1"] := by
  cases res <;> by_cases hbusy : m.isAnimating = true <;>
    by_cases hb : 0 < m.bufferTime <;>
      simp [transitionTo, hred, hbusy, hb, forceAtB, stopAllAnimations, animateInToCover]

-- ----------------------------------------------------------------------
-- Claim theorems
-- ----------------------------------------------------------------------

/-- C1: a `transitionTo(url)` call arriving while a prior transition is
still animating cancels the in-flight animation and immediately forces the
overlay to position B (full coverage): every style the interrupting call
writes is the full-coverage style, the trace begins with the cancellation
followed by the snap to B, and the marker write and navigation come only
after it — the overlay is never left at an intermediate position by the
interrupting call. -/
theorem transitionTo_interrupting_forces_B (m : TM) (url : String) (mediaReduce : Bool)
    (animRes : AnimOutcome) (hbusy : m.isAnimating = true)
    (hred : shouldReduceMotion m mediaReduce = false) :
    (transitionTo m url mediaReduce animRes).1.style = showAtB m.effect m.style ∧
    coversFully m.effect (transitionTo m url mediaReduce animRes).1.style = true ∧
    (∀ s, Ev.styleSet s ∈ (transitionTo m url mediaReduce animRes).2 →
      s = showAtB m.effect m.style) ∧
    (transitionTo m url mediaReduce animRes).2.take 3 =
      [Ev.cancelAnims, Ev.cancelAnims, Ev.styleSet (showAtB m.effect m.style)] ∧
    (transitionTo m url mediaReduce animRes).2.reverse.take 2 =
      [Ev.navigate url, Ev.setMarker m.sessionKey "1"] := by
  by_cases hb : 0 < m.bufferTime <;>
    refine ⟨?_, ?_, ?_, ?_, ?_⟩ <;>
      simp [transitionTo, hred, hbusy, hb, forceAtB, stopAllAnimations,
        coversFully_showAtB]

/-- Witness for C1: interrupting the sample busy manager mid-animation
forces position B before the marker write and the navigation. -/
theorem transitionTo_interrupting_forces_B_witness :
    (transitionTo sampleBusyTM "/next" false AnimOutcome.finished).1.style =
      showAtB sampleBusyTM.effect sampleBusyTM.style ∧
    coversFully sampleBusyTM.effect
      (transitionTo sampleBusyTM "/next" false AnimOutcome.finished).1.style = true ∧
    (∀ s, Ev.styleSet s ∈ (transitionTo sampleBusyTM "/next" false AnimOutcome.finished).2 →
      s = showAtB sampleBusyTM.effect sampleBusyTM.style) ∧
    (transitionTo sampleBusyTM "/next" false AnimOutcome.finished).2.take 3 =
      [Ev.cancelAnims, Ev.cancelAnims,
        Ev.styleSet (showAtB sampleBusyTM.effect sampleBusyTM.style)] ∧
    (transitionTo sampleBusyTM "/next" false AnimOutcome.finished).2.reverse.take 2 =
      [Ev.navigate "/next", Ev.setMarker sampleBusyTM.sessionKey "1"] :=
  transitionTo_interrupting_forces_B sampleBusyTM "/next" false AnimOutcome.finished
    (by decide) (by decide)

/-- C2: the code contradicts the claim — on a fresh classic load with the
default options (empty per-tab storage so no cross-page marker, not
restored from the back/forward cache, no Hold Gate) the constructor leaves
the `_animateOutThenHide` microtask queued, and running it snaps the
overlay to full coverage (position B, visible) and schedules the B→C
tween: the manager does not park at A directly without playing any
out-animation; only the `pageshow` handler's else-branch parks directly. -/
theorem freshLoad_plays_out_animation :
    mkTM (some sampleStyle) none {} ([] : List (String × String)) =
      Except.ok freshTM ∧
    freshTM.initialHeld = false ∧
    getItem freshTM.storage freshTM.sessionKey = none ∧
    freshTM.outMicrotaskQueued = true ∧
    Ev.styleSet (showAtB freshTM.effect freshTM.style) ∈
      (microtaskFire freshTM false AnimOutcome.finished).2 ∧
    Ev.animate Pos.B Pos.C ∈ (microtaskFire freshTM false AnimOutcome.finished).2 ∧
    coversFully freshTM.effect (showAtB freshTM.effect freshTM.style) = true := by
  refine ⟨rfl, ?_⟩
  decide

/-- C3: marker round-trip — a completed `transitionTo` (not under reduced
motion) leaves the cross-page marker set in storage and its trace ends with
the marker write immediately followed by the navigation; on the next page's
load handler, a set marker makes the manager play the out-animation path,
end parked at A, and remove the marker after the out-animation settles
(the trace's final event), so the marker is consumed. -/
theorem marker_roundtrip (m : TM) (url : String) (mediaReduce : Bool)
    (animRes : AnimOutcome) (m2 : TM) (mediaReduce2 : Bool) (outRes : AnimOutcome)
    (hred : shouldReduceMotion m mediaReduce = false)
    (hst : m2.storage = (transitionTo m url mediaReduce animRes).1.storage)
    (hk : m2.sessionKey = m.sessionKey) :
    getItem (transitionTo m url mediaReduce animRes).1.storage m.sessionKey = some "1" ∧
    (transitionTo m url mediaReduce animRes).2.reverse.take 2 =
      [Ev.navigate url, Ev.setMarker m.sessionKey "1"] ∧
    (pageshowHandler m2 false mediaReduce2 outRes).ranOut = true ∧
    getItem (pageshowHandler m2 false mediaReduce2 outRes).st.storage m.sessionKey =
      none ∧
    (pageshowHandler m2 false mediaReduce2 outRes).trace.reverse.take 1 =
      [Ev.removeMarker m.sessionKey] ∧
    parkedAtA (pageshowHandler m2 false mediaReduce2 outRes).st.effect
      (pageshowHandler m2 false mediaReduce2 outRes).st.style = true := by
  have h1 : getItem (transitionTo m url mediaReduce animRes).1.storage m.sessionKey =
      some "1" := by
    rw [transitionTo_storage m url mediaReduce animRes hred]
    exact getItem_setItem_self m.storage m.sessionKey "1"
  have hpend : (getItem m2.storage m2.sessionKey == some "1") = true := by
    rw [hst, hk, h1]
    rfl
  refine ⟨h1, transitionTo_trace_end m url mediaReduce animRes hred, ?_, ?_, ?_, ?_⟩
  · simp [pageshowHandler, hpend]
  · have hrm : (pageshowHandler m2 false mediaReduce2 outRes).st.storage =
        removeItem m2.storage m2.sessionKey := by
      simp [pageshowHandler, hpend, animateOutThenHide_storage, stopAllAnimations]
    rw [hrm, ← hk]
    exact getItem_removeItem_self m2.storage m2.sessionKey
  · rw [← hk]
    simp [pageshowHandler, hpend]
  · have hpk : parkedAtA (pageshowHandler m2 false mediaReduce2 outRes).st.effect
        (pageshowHandler m2 false mediaReduce2 outRes).st.style = true := by
      simp only [pageshowHandler, hpend, Bool.false_or, if_pos]
      exact animateOutThenHide_ends_parked _ _ _
    exact hpk

/-- Witness for C3: the sample manager's completed transition to `/next`
leaves the marker set; the sample destination-page manager consumes it,
plays the out path and ends with the marker removed. -/
theorem marker_roundtrip_witness :
    getItem (transitionTo sampleTM "/next" false AnimOutcome.finished).1.storage
      sampleTM.sessionKey = some "1" ∧
    (transitionTo sampleTM "/next" false AnimOutcome.finished).2.reverse.take 2 =
      [Ev.navigate "/next", Ev.setMarker sampleTM.sessionKey "1"] ∧
    (pageshowHandler sampleNextTM false false AnimOutcome.finished).ranOut = true ∧
    getItem (pageshowHandler sampleNextTM false false AnimOutcome.finished).st.storage
      sampleTM.sessionKey = none ∧
    (pageshowHandler sampleNextTM false false AnimOutcome.finished).trace.reverse.take 1 =
      [Ev.removeMarker sampleTM.sessionKey] ∧
    parkedAtA (pageshowHandler sampleNextTM false false AnimOutcome.finished).st.effect
      (pageshowHandler sampleNextTM false false AnimOutcome.finished).st.style = true :=
  marker_roundtrip sampleTM "/next" false AnimOutcome.finished sampleNextTM false
    AnimOutcome.finished (by decide) rfl rfl

/-- C4: a manager constructed with the Hold Gate enabled is latched with the
failsafe timer armed; when the timeout elapses with the gate still held and
`releaseInitialHold` never called, the timer callback exits the held state
and the out-animation runs, leaving the overlay parked at A hidden — the
overlay is never held covering indefinitely. -/
theorem holdGate_timeout_releases (opts : TMOptions) (sty : OverlayStyle)
    (queried : Option OverlayStyle) (storage : Storage) (m : TM)
    (mediaReduce : Bool) (outRes : AnimOutcome)
    (hh : opts.initialHold = true) (hm : m.initialHeld = true) :
    (∀ t, mkTM (some sty) queried opts storage = Except.ok t →
      t.initialHeld = true ∧ t.holdTimerSet = true) ∧
    (holdTimerFire m mediaReduce outRes).1.initialHeld = false ∧
    (holdTimerFire m mediaReduce outRes).1.holdTimerSet = false ∧
    parkedAtA (holdTimerFire m mediaReduce outRes).1.effect
      (holdTimerFire m mediaReduce outRes).1.style = true ∧
    (holdTimerFire m mediaReduce outRes).2 ≠ [] := by
  have hfire : holdTimerFire m mediaReduce outRes =
      animateOutThenHide { m with initialHeld := false, holdTimerSet := false }
        mediaReduce outRes := by
    simp [holdTimerFire, releaseInitialHold, hm]
  refine ⟨?_, ?_, ?_, ?_, ?_⟩
  · intro t ht
    simp [mkTM, Option.orElse] at ht
    subst ht
    simp [hh]
  · rw [hfire, animateOutThenHide_initialHeld]
  · rw [hfire, animateOutThenHide_holdTimerSet]
  · rw [hfire]
    exact animateOutThenHide_ends_parked _ _ _
  · rw [hfire]
    exact animateOutThenHide_trace_ne_nil _ _ _

/-- Witness for C4: the held sample manager is released by the failsafe
timer and ends parked hidden. -/
theorem holdGate_timeout_releases_witness :
    (∀ t, mkTM (some sampleStyle) none sampleHoldOpts ([] : List (String × String)) =
        Except.ok t → t.initialHeld = true ∧ t.holdTimerSet = true) ∧
    (holdTimerFire sampleHeldTM false AnimOutcome.finished).1.initialHeld = false ∧
    (holdTimerFire sampleHeldTM false AnimOutcome.finished).1.holdTimerSet = false ∧
    parkedAtA (holdTimerFire sampleHeldTM false AnimOutcome.finished).1.effect
      (holdTimerFire sampleHeldTM false AnimOutcome.finished).1.style = true ∧
    (holdTimerFire sampleHeldTM false AnimOutcome.finished).2 ≠ [] :=
  holdGate_timeout_releases sampleHoldOpts sampleStyle none
    ([] : List (String × String)) sampleHeldTM false AnimOutcome.finished
    (by decide) (by decide)

/-- C5: with the reduced-motion preference active and respected,
`transitionTo(url)` navigates immediately with no tween and no other event,
and the out path replaces its tween with an instantaneous snap to C
followed by parking at A on the next frame. -/
theorem reducedMotion_instant (m : TM) (url : String)
    (animRes outRes : AnimOutcome) (h : m.respectReducedMotion = true) :
    transitionTo m url true animRes =
      ({ m with location := some url }, [Ev.navigate url]) ∧
    (animateOutThenHide m true outRes).2 =
      [Ev.styleSet (hideAtC m.effect m.style), Ev.raf,
        Ev.styleSet (parkAtAAndHide m.effect (hideAtC m.effect m.style))] ∧
    (∀ a b, Ev.animate a b ∉ (animateOutThenHide m true outRes).2) ∧
    (animateOutThenHide m true outRes).1.style =
      parkAtAAndHide m.effect (hideAtC m.effect m.style) := by
  have hs : shouldReduceMotion m true = true := by
    simp [shouldReduceMotion, h]
  refine ⟨?_, ?_, ?_, ?_⟩ <;> simp [transitionTo, animateOutThenHide, hs]

/-- Witness for C5: the sample manager under reduced motion navigates with
no tween and snaps the out path. -/
theorem reducedMotion_instant_witness :
    transitionTo sampleTM "/next" true AnimOutcome.finished =
      ({ sampleTM with location := some "/next" }, [Ev.navigate "/next"]) ∧
    (animateOutThenHide sampleTM true AnimOutcome.finished).2 =
      [Ev.styleSet (hideAtC sampleTM.effect sampleTM.style), Ev.raf,
        Ev.styleSet (parkAtAAndHide sampleTM.effect
          (hideAtC sampleTM.effect sampleTM.style))] ∧
    (∀ a b, Ev.animate a b ∉ (animateOutThenHide sampleTM true AnimOutcome.finished).2) ∧
    (animateOutThenHide sampleTM true AnimOutcome.finished).1.style =
      parkAtAAndHide sampleTM.effect (hideAtC sampleTM.effect sampleTM.style) :=
  reducedMotion_instant sampleTM "/next" AnimOutcome.finished AnimOutcome.finished
    (by decide)

/-- C10: under an active reduced-motion preference, `transitionTo(url)`
assigns the new location while leaving per-tab storage unchanged, so a
destination page that starts with no marker observes no pending-out flag
and plays no marker-driven out-animation. -/
theorem reducedMotion_no_marker (m : TM) (url : String) (animRes : AnimOutcome)
    (m2 : TM) (mediaReduce2 : Bool) (outRes : AnimOutcome)
    (h : m.respectReducedMotion = true)
    (hm : (getItem m.storage m.sessionKey == some "1") = false)
    (hst : m2.storage = (transitionTo m url true animRes).1.storage)
    (hk : m2.sessionKey = m.sessionKey)
    (hheld : m2.initialHeld = false) :
    (transitionTo m url true animRes).1.storage = m.storage ∧
    (transitionTo m url true animRes).1.location = some url ∧
    (pageshowHandler m2 false mediaReduce2 outRes).ranOut = false := by
  have hs : shouldReduceMotion m true = true := by
    simp [shouldReduceMotion, h]
  have h1 : (transitionTo m url true animRes).1.storage = m.storage := by
    simp [transitionTo, hs]
  have hpend : (getItem m2.storage m2.sessionKey == some "1") = false := by
    rw [hst, h1, hk]
    exact hm
  refine ⟨h1, by simp [transitionTo, hs], ?_⟩
  simp [pageshowHandler, hpend, hheld, stopAllAnimations]

/-- Witness for C10: the sample manager under reduced motion navigates to
`/next` leaving its (empty) storage untouched, and the destination manager
plays no out-animation. -/
theorem reducedMotion_no_marker_witness :
    (transitionTo sampleTM "/next" true AnimOutcome.finished).1.storage =
      sampleTM.storage ∧
    (transitionTo sampleTM "/next" true AnimOutcome.finished).1.location =
      some "/next" ∧
    (pageshowHandler sampleTM false false AnimOutcome.canceled).ranOut = false :=
  reducedMotion_no_marker sampleTM "/next" AnimOutcome.finished sampleTM false
    AnimOutcome.canceled (by decide) (by decide) (by decide) rfl rfl

/-- C6: the named state setters maintain the visibility invariant: parking
at A or hiding at C leaves the overlay hidden, showing at B leaves it
visible, from any prior styling state and for both effects. -/
theorem stateSetters_visibility_invariant (eff : Effect) (s : OverlayStyle) :
    (parkAtAAndHide eff s).visibility = "hidden" ∧
    (showAtB eff s).visibility = "visible" ∧
    (hideAtC eff s).visibility = "hidden" := by
  cases eff <;> simp [parkAtAAndHide, showAtB, hideAtC]

/-- C9: the park operation is idempotent — from any styling state a single
call yields position A hidden, and a repeated call leaves the style
unchanged. -/
theorem parkAtAAndHide_idempotent (eff : Effect) (s : OverlayStyle) :
    parkAtAAndHide eff (parkAtAAndHide eff s) = parkAtAAndHide eff s ∧
    parkedAtA eff (parkAtAAndHide eff s) = true ∧
    (parkAtAAndHide eff s).visibility = "hidden" := by
  cases eff <;> simp [parkAtAAndHide, parkedAtA]

/-- C8: constructing with no overlay reference and a selector that resolves
to no element fails with the construction error, for every option set and
storage content. -/
theorem mkTM_missing_overlay_fails (opts : TMOptions) (storage : Storage) :
    mkTM none none opts storage =
      Except.error "TransitionManager: overlay element not found. Provide overlay or overlaySelector." := by
  rfl

/-- C7: for a link click on an anchor with a (non-empty) href: a modifier
key or a `_blank` target makes the handler defer to the browser (no
`preventDefault`, no `transitionTo`); otherwise it prevents the default
navigation and hands the anchor's href to `transitionTo`. -/
theorem handleLinkClick_spec (e : MouseEv) (a : Anchor) (h : a.href ≠ "") :
    ((e.metaKey || e.ctrlKey || e.shiftKey || e.altKey || a.target == "_blank") = true →
      (handleLinkClick e (some a)).preventedDefault = false ∧
      (handleLinkClick e (some a)).navigatedTo = none) ∧
    ((e.metaKey || e.ctrlKey || e.shiftKey || e.altKey || a.target == "_blank") = false →
      (handleLinkClick e (some a)).preventedDefault = true ∧
      (handleLinkClick e (some a)).navigatedTo = some a.href) := by
  constructor <;> intro hc <;> simp [handleLinkClick, h, hc]

/-- Witness for C7 at concrete inputs: a plain click (no modifiers, default
target) on `/next` is intercepted and routed to `transitionTo`. -/
theorem handleLinkClick_spec_witness :
    ((false || false || false || false ||
        ((Anchor.mk "/next" "").target == "_blank")) = true →
      (handleLinkClick (MouseEv.mk false false false false)
        (some (Anchor.mk "/next" ""))).preventedDefault = false ∧
      (handleLinkClick (MouseEv.mk false false false false)
        (some (Anchor.mk "/next" ""))).navigatedTo = none) ∧
    ((false || false || false || false ||
        ((Anchor.mk "/next" "").target == "_blank")) = false →
      (handleLinkClick (MouseEv.mk false false false false)
        (some (Anchor.mk "/next" ""))).preventedDefault = true ∧
      (handleLinkClick (MouseEv.mk false false false false)
        (some (Anchor.mk "/next" ""))).navigatedTo = some (Anchor.mk "/next" "").href) :=
  handleLinkClick_spec (MouseEv.mk false false false false) (Anchor.mk "/next" "")
    (by decide)

end SmnSite
